import Mathlib

set_option maxHeartbeats 1000000

namespace ChatBuddy

/-! Character-level primitives mirroring the JavaScript string operations used by
    the content script (trim, startsWith, includes, split on a single character).
    Strings are ASCII in every scenario of interest, so JavaScript UTF-16 lengths
    coincide with character counts. -/

/-- The whitespace characters stripped by JavaScript trim (ASCII subset). -/
def isWsChar (c : Char) : Bool :=
  c == ' ' || c == '\t' || c == '\n' || c == '\r' || c == '\x0b' || c == '\x0c'

/-- Strip leading and trailing whitespace from a character list. -/
def trimChars (l : List Char) : List Char :=
  ((l.dropWhile isWsChar).reverse.dropWhile isWsChar).reverse

/-- Model of JavaScript String.prototype.trim. -/
def jsTrim (s : String) : String := String.mk (trimChars s.data)

/-- Boolean list-prefix test (structural, for exact control of reduction). -/
def listPre : List Char → List Char → Bool
  | [], _ => true
  | _ :: _, [] => false
  | a :: as, b :: bs => a == b && listPre as bs

/-- Model of JavaScript String.prototype.startsWith. -/
def jsStarts (s pat : String) : Bool := listPre pat.data s.data

/-- Boolean infix (substring-at-any-position) test. -/
def listSub (pat : List Char) : List Char → Bool
  | [] => listPre pat []
  | c :: cs => listPre pat (c :: cs) || listSub pat cs

/-- Model of JavaScript String.prototype.includes. -/
def jsIncludes (s pat : String) : Bool := listSub pat.data s.data

/-- Worker for split on a single separator character. -/
def splitChAux (sep : Char) : List Char → List Char → List String
  | [], acc => [String.mk acc.reverse]
  | c :: cs, acc =>
    if c == sep then String.mk acc.reverse :: splitChAux sep cs []
    else splitChAux sep cs (c :: acc)

/-- Model of JavaScript String.prototype.split with a one-character separator. -/
def splitCh (sep : Char) (s : String) : List String := splitChAux sep s.data []

/-- Drop the first n characters of a string (used to strip a recognized label). -/
def strDrop (s : String) (n : Nat) : String := String.mk (s.data.drop n)

/-! The message filter isUserMessage from content.js. -/

/-- The leading clock-time pattern: one or two digits, a colon or dot, two digits. -/
def startsTime (l : List Char) : Bool :=
  match l with
  | a :: b :: c :: d :: rest =>
    (a.isDigit && (b == ':' || b == '.') && c.isDigit && d.isDigit) ||
    (match rest with
     | e :: _ => a.isDigit && b.isDigit && (c == ':' || c == '.') && d.isDigit && e.isDigit
     | [] => false)
  | _ => false

/-- Character class of the pure-time regex: digits, whitespace, colon, a/p/m (case-insensitive). -/
def timeChar (c : Char) : Bool :=
  c.isDigit || isWsChar c || c == ':' || c == 'a' || c == 'p' || c == 'm' ||
  c == 'A' || c == 'P' || c == 'M'

/-- Whole string consists only of time-like characters (and is nonempty). -/
def timeOnly (l : List Char) : Bool := !l.isEmpty && l.all timeChar

/-- Translation of isUserMessage from content.js: nonempty, length bounds,
    not a leading timestamp, not purely time-like characters, no http, no at-sign,
    and more than one part when split on the single space character. -/
def isUserMessage (text : String) : Bool :=
  !(text == "") &&
  decide (2 < text.data.length) &&
  decide (text.data.length < 300) &&
  !startsTime text.data &&
  !timeOnly text.data &&
  !jsIncludes text "http" &&
  !jsIncludes text "@" &&
  decide (1 < (splitCh ' ' text).length)

/-! The response parser parseAnalysis from content.js. -/

structure AnalysisResult where
  level : String
  toxicPerson : String
  behaviors : List String
  problem : String
  suggestion : String
deriving DecidableEq

/-- The fully-defaulted record parseAnalysis starts from. -/
def defaultResult : AnalysisResult :=
  ⟨"None", "None", ["No toxic behaviors detected"], "No significant issues",
   "Keep up the good communication"⟩

def levelValues : List String := ["Low", "Medium", "High", "None"]

def personValues : List String := ["Person A", "Person B", "Both", "None"]

/-- Comma-splitting of a Behaviors value: split on commas, trim items, drop empties. -/
def behaviorsSplit (v : String) : List String :=
  ((splitCh ',' v).map jsTrim).filter (fun b => !(b == ""))

/-- One iteration of the line loop in parseAnalysis: trim the line, and if it starts
    with a known label, strip the label, trim the value and apply the field rule. -/
def parseLine (r : AnalysisResult) (line : String) : AnalysisResult :=
  let cleanLine := jsTrim line
  if jsStarts cleanLine "Level:" then
    let v := jsTrim (strDrop cleanLine 6)
    { r with level := if v ∈ levelValues then v else "None" }
  else if jsStarts cleanLine "ToxicPerson:" then
    let v := jsTrim (strDrop cleanLine 12)
    { r with toxicPerson := if v ∈ personValues then v else "None" }
  else if jsStarts cleanLine "Behaviors:" then
    let v := jsTrim (strDrop cleanLine 10)
    if !(v == "") && !(jsIncludes v "No toxic behaviors") then
      { r with behaviors := behaviorsSplit v }
    else r
  else if jsStarts cleanLine "Problem:" then
    let v := jsTrim (strDrop cleanLine 8)
    if !(v == "") && !(jsIncludes v "No significant issues") then
      { r with problem := v }
    else r
  else if jsStarts cleanLine "Suggestion:" then
    let v := jsTrim (strDrop cleanLine 11)
    if !(v == "") && !(jsIncludes v "Keep up the good communication") then
      { r with suggestion := v }
    else r
  else r

/-- Translation of parseAnalysis: split on newlines and fold the line rule
    over the defaulted record. -/
def parseAnalysis (raw : String) : AnalysisResult :=
  (splitCh '\n' raw).foldl parseLine defaultResult

/-! Rendering: getPersonStatus and the render-model selection of renderAnalysis. -/

/-- Per-person status derivation from content.js. -/
def getPersonStatus (person toxicPerson : String) : String :=
  if toxicPerson == "Person " ++ person then "toxic"
  else if toxicPerson == "Both" then "moderate"
  else if toxicPerson == "None" then "good"
  else "neutral"

/-- The two render variants produced by renderAnalysis: the positive
    healthy-conversation card, or the normal detail card. -/
inductive RenderModel where
  | healthy
  | detail (result : AnalysisResult) (personA personB : String)
deriving DecidableEq

/-- Variant selection in renderAnalysis, evaluated against the streak counter
    already updated by displayAnalysis. -/
def renderAnalysis (r : AnalysisResult) (streak : Nat) : RenderModel :=
  if 2 ≤ streak ∧ r.level = "None" then RenderModel.healthy
  else RenderModel.detail r (getPersonStatus "A" r.toxicPerson) (getPersonStatus "B" r.toxicPerson)

/-! The analyzer state: session flags, settings, buffer, scheduler fields and
    the indicator (visibility plus current content). -/

/-- What the indicator currently displays. -/
inductive Content where
  | listening
  | statusMsg (text : String)
  | loadingMsg (messageCount : Nat)
  | errorMsg (text : String)
  | analysis (model : RenderModel)
deriving DecidableEq

structure Settings where
  apiKey : String
  analysisDelay : Option Nat
  messageCount : Option Nat
deriving DecidableEq

/-- JavaScript numeric defaulting with the or-operator: undefined and 0 are falsy. -/
def orDefault (v : Option Nat) (d : Nat) : Nat :=
  match v with
  | none => d
  | some n => if n = 0 then d else n

/-- The buffer capacity: settings.messageCount with default 10. -/
def capacity (s : Settings) : Nat := orDefault s.messageCount 10

/-- The cooldown in milliseconds: settings.analysisDelay (seconds, default 10) times 1000. -/
def delayMs (s : Settings) : Nat := orDefault s.analysisDelay 10 * 1000

structure AnalyzerState where
  isActive : Bool
  settings : Settings
  lastAnalysisTime : Nat
  messageBuffer : List String
  analysisInProgress : Bool
  consecutiveEmptyAnalyses : Nat
  indicatorVisible : Bool
  indicatorContent : Content
deriving DecidableEq

/-- State after the constructor and init: inactive, empty buffer, hidden indicator. -/
def initState : AnalyzerState :=
  ⟨false, ⟨"", none, none⟩, 0, [], false, 0, false, Content.listening⟩

/-- startAnalysis: activate, snapshot settings, show the indicator with the
    active status message. -/
def startAnalysis (st : AnalyzerState) (settings : Settings) : AnalyzerState :=
  { st with isActive := true, settings := settings, indicatorVisible := true,
            indicatorContent := Content.statusMsg "Active - analyzing messages as they appear..." }

/-- stopAnalysis: deactivate, hide the indicator, clear the buffer, reset the streak.
    It touches neither lastAnalysisTime nor analysisInProgress. -/
def stopAnalysis (st : AnalyzerState) : AnalyzerState :=
  { st with isActive := false, indicatorVisible := false, messageBuffer := [],
            consecutiveEmptyAnalyses := 0 }

/-! The mutation-observer callback of startObserving, as a step function over the
    candidate texts extracted from one mutation batch. -/

/-- Insertion-ordered deduplication, as performed by the Set in extractNewMessages. -/
def dedupFirst (l : List String) : List String :=
  l.foldl (fun acc t => if t ∈ acc then acc else acc ++ [t]) []

/-- extractNewMessages: keep nonempty candidates passing isUserMessage, deduplicated
    within the batch (insertion order). -/
def extractNewMessages (texts : List String) : List String :=
  dedupFirst (texts.filter (fun t => !(t == "") && isUserMessage t))

/-- The forEach push loop: append each message not already in the buffer that
    passes isUserMessage. -/
def appendMessages (buffer : List String) (newMessages : List String) : List String :=
  newMessages.foldl
    (fun b msg => if msg ∉ b ∧ isUserMessage msg = true then b ++ [msg] else b) buffer

/-- Keep only recent messages: when over capacity, retain the last maxMessages
    elements (the slice with negative index). -/
def truncateBuffer (buffer : List String) (maxMessages : Nat) : List String :=
  if maxMessages < buffer.length then buffer.drop (buffer.length - maxMessages) else buffer

/-- The synchronous head of analyzeConversation, up to the await on the remote call:
    re-check the guard, set the in-flight flag, record the trigger time, show the
    loading card. Returns the state and whether a cycle actually started. -/
def fireAnalysis (st : AnalyzerState) (now : Nat) : AnalyzerState × Bool :=
  if st.messageBuffer.length < 2 ∨ st.analysisInProgress = true then (st, false)
  else
    ({ st with analysisInProgress := true, lastAnalysisTime := now,
               indicatorContent := Content.loadingMsg st.messageBuffer.length,
               indicatorVisible := true }, true)

/-- One run of the MutationObserver callback on the texts extracted from a batch at
    clock value now: bail out when inactive or in flight; otherwise merge new
    messages, truncate, and fire an analysis cycle when the throttle and buffer-size
    conditions hold. The Bool records whether a cycle fired. -/
def observerStep (st : AnalyzerState) (texts : List String) (now : Nat) :
    AnalyzerState × Bool :=
  if st.isActive = false ∨ st.analysisInProgress = true then (st, false)
  else
    let newMessages := extractNewMessages texts
    if newMessages.length = 0 then (st, false)
    else
      let buf1 := appendMessages st.messageBuffer newMessages
      let buf2 := truncateBuffer buf1 (capacity st.settings)
      let st1 := { st with messageBuffer := buf2 }
      if delayMs st.settings < now - st.lastAnalysisTime ∧ 2 ≤ buf2.length then
        fireAnalysis st1 now
      else (st1, false)

/-- Process a sequence of mutation batches (each paired with its clock value). -/
def processBatches (st : AnalyzerState) (batches : List (List String × Nat)) :
    AnalyzerState :=
  batches.foldl (fun s b => (observerStep s b.1 b.2).1) st

/-! The remote call and the continuation after the await. -/

/-- Shape of the remote response as far as sendToGemini inspects it. -/
structure ApiResponse where
  ok : Bool
  status : Nat
  errorMessage : Option String
  text : Option String

/-- sendToGemini after the fetch resolves: non-ok status, error payload, and
    missing text payload each raise; otherwise the text payload is returned. -/
def sendToGemini (resp : ApiResponse) : Except String String :=
  if resp.ok = false then Except.error ("API error: " ++ toString resp.status)
  else
    match resp.errorMessage with
    | some m => Except.error ("API Error: " ++ m)
    | none =>
      match resp.text with
      | some t => Except.ok t
      | none => Except.error "Invalid response from API"

/-- displayAnalysis: parse the raw text, update the clean-result streak, render
    into the indicator and show it. No session-active check is performed. -/
def displayAnalysis (st : AnalyzerState) (analysis : String) : AnalyzerState :=
  let parsed := parseAnalysis analysis
  let streak :=
    if parsed.level = "None" ∧ parsed.toxicPerson = "None" then
      st.consecutiveEmptyAnalyses + 1
    else 0
  { st with consecutiveEmptyAnalyses := streak,
            indicatorContent := Content.analysis (renderAnalysis parsed streak),
            indicatorVisible := true }

/-- showError: put a transient error card into the indicator and show it. -/
def showError (st : AnalyzerState) (message : String) : AnalyzerState :=
  { st with indicatorContent := Content.errorMsg message, indicatorVisible := true }

/-- Resumption of analyzeConversation when the awaited remote call resolves:
    on success display the parsed analysis, on error show the error message;
    in both cases the finally block releases the in-flight flag. -/
def completeCycle (st : AnalyzerState) (resp : ApiResponse) : AnalyzerState :=
  match sendToGemini resp with
  | Except.ok text =>
    let st1 := displayAnalysis st text
    { st1 with analysisInProgress := false }
  | Except.error msg =>
    let st1 := showError st ("Analysis error: " ++ msg)
    { st1 with analysisInProgress := false }

/-- The conversation-buffer invariant: no duplicates and within capacity. -/
def BufferInv (st : AnalyzerState) : Prop :=
  st.messageBuffer.Nodup ∧ st.messageBuffer.length ≤ capacity st.settings

instance (st : AnalyzerState) : Decidable (BufferInv st) := by
  unfold BufferInv; infer_instance

/-- Count of maximal whitespace-delimited tokens in a character list; the Bool
    records whether we are currently inside a token. -/
def wsTokenAux : List Char → Bool → Nat
  | [], _ => 0
  | c :: cs, inTok =>
    if isWsChar c then wsTokenAux cs false
    else (if inTok then 0 else 1) + wsTokenAux cs true

/-- Number of whitespace-delimited tokens of a string, as the specification
    phrases the isUserMessage property. -/
def wsTokenCount (s : String) : Nat := wsTokenAux s.data false

/-- Example settings used in concrete scenarios. -/
def exSettings : Settings := ⟨"key", none, none⟩

/-- An active session with a remote call in flight and an empty buffer. -/
def exInflight : AnalyzerState :=
  ⟨true, exSettings, 0, [], true, 0, true, Content.loadingMsg 2⟩

/-! Helper lemmas about the string primitives. -/

lemma dropWhile_len_le (p : Char → Bool) (l : List Char) :
    (l.dropWhile p).length ≤ l.length := by
  induction l with
  | nil => simp
  | cons c cs ih =>
    rw [List.dropWhile_cons]
    split
    · exact le_trans ih (Nat.le_succ _)
    · exact le_refl _

lemma head_not_ws (c : Char) (t : List Char)
    (h : (c :: t).dropWhile isWsChar = c :: t) : isWsChar c = false := by
  by_cases hc : isWsChar c
  · rw [List.dropWhile_cons_of_pos hc] at h
    have hlen := dropWhile_len_le isWsChar t
    rw [h] at hlen
    simp at hlen
  · simpa using hc

lemma data_ne_nil (s : String) (h : s ≠ "") : s.data ≠ [] := by
  intro hd
  apply h
  cases s
  simp_all

lemma trimChars_wrap (c : Char) (cs v : List Char) (hc : isWsChar c = false)
    (hv2 : v.reverse.dropWhile isWsChar = v.reverse) (hvne : v ≠ []) :
    trimChars ((c :: cs) ++ v) = (c :: cs) ++ v := by
  obtain ⟨h, t, hv⟩ : ∃ h t, v.reverse = h :: t := by
    cases hr : v.reverse with
    | nil => exact absurd (by simpa using congrArg List.reverse hr) hvne
    | cons h t => exact ⟨h, t, rfl⟩
  have hv' : v = t.reverse ++ [h] := by
    rw [← List.reverse_reverse v, hv]
    simp
  have hh : isWsChar h = false := by
    rw [hv] at hv2
    exact head_not_ws h t hv2
  unfold trimChars
  rw [List.cons_append, List.dropWhile_cons_of_neg (by simp [hc])]
  rw [show (c :: (cs ++ v)).reverse = h :: (t ++ (cs.reverse ++ [c])) by
        rw [hv']; simp]
  rw [List.dropWhile_cons_of_neg (by simp [hh])]
  rw [hv']
  simp

lemma trimChars_fix (v : List Char) (h1 : v.dropWhile isWsChar = v)
    (h2 : v.reverse.dropWhile isWsChar = v.reverse) : trimChars v = v := by
  unfold trimChars
  rw [h1, h2, List.reverse_reverse]

lemma trimChars_space (v : List Char) (h1 : v.dropWhile isWsChar = v)
    (h2 : v.reverse.dropWhile isWsChar = v.reverse) : trimChars (' ' :: v) = v := by
  unfold trimChars
  rw [List.dropWhile_cons_of_pos (by decide : isWsChar ' ' = true), h1, h2,
      List.reverse_reverse]

lemma splitChAux_no_sep (sep : Char) (l : List Char) (acc : List Char)
    (h : sep ∉ l) : splitChAux sep l acc = [String.mk (acc.reverse ++ l)] := by
  induction l generalizing acc with
  | nil => simp [splitChAux]
  | cons c cs ih =>
    have hc : ¬((c == sep) = true) := by
      simp only [beq_iff_eq]
      intro hh
      exact h (hh ▸ List.mem_cons_self c cs)
    rw [splitChAux, if_neg hc, ih (c :: acc) (fun hm => h (List.mem_cons_of_mem c hm))]
    simp

/-! Claim C4: batches arriving while a call is in flight. -/

/-- Claim C4 counterexample: with an active session and a call in flight, a batch
    carrying a new qualifying message leaves the buffer untouched instead of
    appending the message — the whole batch is dropped, not just the trigger. -/
theorem inflight_update_claim_cex :
    isUserMessage "hello world" = true ∧ exInflight.isActive = true ∧
    exInflight.analysisInProgress = true ∧ exInflight.messageBuffer = [] ∧
    (observerStep exInflight ["hello world"] 100000).1.messageBuffer = [] ∧
    ["hello world"] ≠ ([] : List String) := by decide

/-- Claim C4 (amended): while a remote call is in flight, the observer callback
    ignores the mutation batch entirely — the state (buffer included) is unchanged
    and no analysis cycle fires. -/
theorem inflight_batch_ignored (st : AnalyzerState) (texts : List String) (now : Nat)
    (h : st.analysisInProgress = true) : observerStep st texts now = (st, false) := by
  unfold observerStep
  rw [if_pos (Or.inr h)]

/-- Witness for the amended claim C4 at a concrete in-flight state. -/
theorem inflight_batch_ignored_witness :
    exInflight.analysisInProgress = true ∧
    observerStep exInflight ["hello world"] 100000 = (exInflight, false) :=
  ⟨rfl, inflight_batch_ignored exInflight ["hello world"] 100000 rfl⟩

/-! Claim C7: remote-call failure handling. -/

/-- Claim C7: when the remote call fails (non-success status, API error payload,
    or missing text payload), the cycle shows a transient user-visible error card,
    leaves the session active, and releases the in-flight gate. -/
theorem remote_error_recovery (st : AnalyzerState) (resp : ApiResponse) (msg : String)
    (herr : sendToGemini resp = Except.error msg) (hact : st.isActive = true) :
    (completeCycle st resp).analysisInProgress = false ∧
    (completeCycle st resp).isActive = true ∧
    (completeCycle st resp).indicatorVisible = true ∧
    (completeCycle st resp).indicatorContent =
      Content.errorMsg ("Analysis error: " ++ msg) := by
  unfold completeCycle
  rw [herr]
  exact ⟨rfl, hact, rfl, rfl⟩

/-- Witness for claim C7 with an API-reported error payload. -/
theorem remote_error_recovery_witness :
    (completeCycle (startAnalysis initState exSettings)
        ⟨true, 200, some "quota exceeded", none⟩).analysisInProgress = false ∧
    (completeCycle (startAnalysis initState exSettings)
        ⟨true, 200, some "quota exceeded", none⟩).isActive = true ∧
    (completeCycle (startAnalysis initState exSettings)
        ⟨true, 200, some "quota exceeded", none⟩).indicatorVisible = true ∧
    (completeCycle (startAnalysis initState exSettings)
        ⟨true, 200, some "quota exceeded", none⟩).indicatorContent =
      Content.errorMsg ("Analysis error: " ++ "API Error: quota exceeded") :=
  remote_error_recovery (startAnalysis initState exSettings)
    ⟨true, 200, some "quota exceeded", none⟩ "API Error: quota exceeded" rfl rfl

/-! Claim C8: the single-token rejection rule of isUserMessage. -/

/-- Claim C8 counterexample: the string consisting of the word hey and a trailing
    space has a single whitespace-delimited token, yet isUserMessage accepts it,
    because the code splits on the space character only and counts the empty
    trailing part. -/
theorem token_count_claim_cex :
    wsTokenCount "hey " = 1 ∧ ¬2 ≤ wsTokenCount "hey " ∧
    isUserMessage "hey " = true := by decide

/-- Claim C8 (amended): for every string with fewer than two parts when split on
    the space character — equivalently, containing no space — isUserMessage
    returns false. -/
theorem no_space_message_rejected (s : String) (h : ' ' ∉ s.data) :
    isUserMessage s = false := by
  have hs : splitCh ' ' s = [s] := by
    unfold splitCh
    rw [splitChAux_no_sep ' ' s.data [] h]
    simp
  unfold isUserMessage
  rw [hs]
  simp

/-- Witness for the amended claim C8 on a one-word string. -/
theorem no_space_message_rejected_witness :
    (' ' ∉ "hello".data) ∧ isUserMessage "hello" = false :=
  ⟨by decide, no_space_message_rejected "hello" (by decide)⟩

/-! Claim C10: stop clears the buffer and streak but keeps the cooldown clock. -/

lemma observerStep_throttled (st : AnalyzerState) (texts : List String) (now : Nat)
    (h : now - st.lastAnalysisTime ≤ delayMs st.settings) :
    (observerStep st texts now).2 = false := by
  unfold observerStep
  split
  · rfl
  · simp only
    split
    · rfl
    · split
      · next hcond => omega
      · rfl

/-- Claim C10: stopAnalysis clears the buffer and resets the streak but leaves
    lastAnalysisTime unchanged; after a stop followed by a start, an observer step
    inside the cooldown window (measured from the previous session's last trigger
    time) never fires. -/
theorem stop_preserves_cooldown :
    (∀ st : AnalyzerState,
      (stopAnalysis st).lastAnalysisTime = st.lastAnalysisTime ∧
      (stopAnalysis st).messageBuffer = [] ∧
      (stopAnalysis st).consecutiveEmptyAnalyses = 0) ∧
    (∀ (st : AnalyzerState) (settings : Settings),
      (startAnalysis (stopAnalysis st) settings).lastAnalysisTime =
        st.lastAnalysisTime) ∧
    (∀ (st : AnalyzerState) (settings : Settings) (texts : List String) (now : Nat),
      now - st.lastAnalysisTime ≤ delayMs settings →
      (observerStep (startAnalysis (stopAnalysis st) settings) texts now).2 = false) := by
  refine ⟨fun st => ⟨rfl, rfl, rfl⟩, fun st settings => rfl, ?_⟩
  intro st settings texts now h
  exact observerStep_throttled (startAnalysis (stopAnalysis st) settings) texts now h

/-- A session that last triggered an analysis at time 5000, idle again. -/
def exIdleAfterCycle : AnalyzerState :=
  ⟨true, exSettings, 5000, ["hello there", "how are you friend"], false, 0, true,
   Content.listening⟩

/-- Witness for claim C10: a stopped-and-restarted session with the last trigger
    at time 5000 does not fire again at time 12000 under the default 10 second
    cooldown. -/
theorem stop_preserves_cooldown_witness :
    ((stopAnalysis exIdleAfterCycle).lastAnalysisTime =
      exIdleAfterCycle.lastAnalysisTime ∧
     (stopAnalysis exIdleAfterCycle).messageBuffer = [] ∧
     (stopAnalysis exIdleAfterCycle).consecutiveEmptyAnalyses = 0) ∧
    (12000 - exIdleAfterCycle.lastAnalysisTime ≤ delayMs exSettings ∧
     (observerStep (startAnalysis (stopAnalysis exIdleAfterCycle) exSettings)
        ["hello there", "how are you friend"] 12000).2 = false) :=
  ⟨stop_preserves_cooldown.1 exIdleAfterCycle,
   by decide,
   stop_preserves_cooldown.2.2 exIdleAfterCycle exSettings
     ["hello there", "how are you friend"] 12000 (by decide)⟩

/-! Claim C3: a late response arriving after stopAnalysis is still rendered. -/

/-- Claim C3 evaluated at the failing scenario: a batch starts a cycle, the session
    is stopped while the call is in flight, and when the call resolves the parsed
    result is rendered into the indicator and the indicator is made visible again —
    the code performs no session-active check in displayAnalysis, contradicting the
    claim that late completions are discarded. -/
theorem late_response_rendered_after_stop :
    (observerStep (startAnalysis initState exSettings)
      ["hello there", "general kenobi you are bold"] 20000).2 = true ∧
    (stopAnalysis (observerStep (startAnalysis initState exSettings)
      ["hello there", "general kenobi you are bold"] 20000).1).isActive = false ∧
    (stopAnalysis (observerStep (startAnalysis initState exSettings)
      ["hello there", "general kenobi you are bold"] 20000).1).indicatorVisible = false ∧
    (completeCycle (stopAnalysis (observerStep (startAnalysis initState exSettings)
        ["hello there", "general kenobi you are bold"] 20000).1)
      ⟨true, 200, none, some "Level: High\nToxicPerson: Person A"⟩).isActive = false ∧
    (completeCycle (stopAnalysis (observerStep (startAnalysis initState exSettings)
        ["hello there", "general kenobi you are bold"] 20000).1)
      ⟨true, 200, none, some "Level: High\nToxicPerson: Person A"⟩).indicatorVisible = true ∧
    (completeCycle (stopAnalysis (observerStep (startAnalysis initState exSettings)
        ["hello there", "general kenobi you are bold"] 20000).1)
      ⟨true, 200, none, some "Level: High\nToxicPerson: Person A"⟩).indicatorContent =
      Content.analysis (RenderModel.detail
        ⟨"High", "Person A", ["No toxic behaviors detected"], "No significant issues",
         "Keep up the good communication"⟩ "toxic" "neutral") := by decide

/-! Claim C1: the buffer invariant (no duplicates, within capacity). -/

lemma appendMessages_nodup (msgs : List String) (b : List String) (hb : b.Nodup) :
    (appendMessages b msgs).Nodup := by
  induction msgs generalizing b with
  | nil => exact hb
  | cons m ms ih =>
    unfold appendMessages at ih ⊢
    simp only [List.foldl]
    apply ih
    split
    · next hcond =>
      have hc := List.Nodup.concat hcond.1 hb
      rwa [List.concat_eq_append] at hc
    · exact hb

lemma truncateBuffer_length_le (b : List String) (m : Nat) :
    (truncateBuffer b m).length ≤ m := by
  unfold truncateBuffer
  split
  · next h =>
    rw [List.length_drop]
    omega
  · next h => omega

lemma truncateBuffer_nodup (b : List String) (m : Nat) (hb : b.Nodup) :
    (truncateBuffer b m).Nodup := by
  unfold truncateBuffer
  split
  · exact List.Nodup.sublist (List.drop_sublist _ _) hb
  · exact hb

lemma observerStep_inv (st : AnalyzerState) (texts : List String) (now : Nat)
    (h : BufferInv st) : BufferInv (observerStep st texts now).1 := by
  have h2 : (truncateBuffer (appendMessages st.messageBuffer (extractNewMessages texts))
      (capacity st.settings)).Nodup :=
    truncateBuffer_nodup _ _ (appendMessages_nodup _ _ h.1)
  have h3 : (truncateBuffer (appendMessages st.messageBuffer (extractNewMessages texts))
      (capacity st.settings)).length ≤ capacity st.settings :=
    truncateBuffer_length_le _ _
  unfold observerStep
  split
  · exact h
  · simp only
    split
    · exact h
    · split
      · unfold fireAnalysis
        split
        · exact ⟨h2, h3⟩
        · exact ⟨h2, h3⟩
      · exact ⟨h2, h3⟩

/-- Claim C1: over any sequence of mutation batches, the conversation buffer keeps
    its invariant — it never contains two equal strings, and once truncation has run
    it never exceeds the configured capacity (settings.messageCount, default 10). -/
theorem buffer_inv_preserved (st : AnalyzerState) (batches : List (List String × Nat))
    (h : BufferInv st) : BufferInv (processBatches st batches) := by
  unfold processBatches
  induction batches generalizing st with
  | nil => exact h
  | cons b bs ih =>
    simp only [List.foldl]
    exact ih _ (observerStep_inv _ _ _ h)

/-- Witness for claim C1: a freshly started session with capacity 2 processes
    batches carrying three distinct messages (one of them repeated). -/
theorem buffer_inv_preserved_witness :
    BufferInv (startAnalysis initState ⟨"key", some 1, some 2⟩) ∧
    BufferInv (processBatches (startAnalysis initState ⟨"key", some 1, some 2⟩)
      [(["hello there", "hello there"], 1500),
       (["how are you friend", "i am fine thanks"], 30000)]) :=
  ⟨by decide,
   buffer_inv_preserved (startAnalysis initState ⟨"key", some 1, some 2⟩)
     [(["hello there", "hello there"], 1500),
      (["how are you friend", "i am fine thanks"], 30000)] (by decide)⟩

/-! Claim C9: the healthy-conversation streak. -/

/-- Claim C9: if two consecutive analysis cycles both parse to level None and
    toxicPerson None, the second cycle's render model is the positive healthy
    variant; any cycle with a non-None level or toxicPerson resets the streak
    counter to 0. -/
theorem healthy_streak_selects_positive :
    (∀ (st : AnalyzerState) (raw1 raw2 : String),
      (parseAnalysis raw1).level = "None" → (parseAnalysis raw1).toxicPerson = "None" →
      (parseAnalysis raw2).level = "None" → (parseAnalysis raw2).toxicPerson = "None" →
      (displayAnalysis (displayAnalysis st raw1) raw2).indicatorContent =
        Content.analysis RenderModel.healthy) ∧
    (∀ (st : AnalyzerState) (raw : String),
      ((parseAnalysis raw).level ≠ "None" ∨ (parseAnalysis raw).toxicPerson ≠ "None") →
      (displayAnalysis st raw).consecutiveEmptyAnalyses = 0) := by
  constructor
  · intro st raw1 raw2 h1 h2 h3 h4
    unfold displayAnalysis
    simp only [if_pos (And.intro h1 h2), if_pos (And.intro h3 h4)]
    unfold renderAnalysis
    rw [if_pos (And.intro (by omega) h3)]
  · intro st raw h
    show (if (parseAnalysis raw).level = "None" ∧ (parseAnalysis raw).toxicPerson = "None"
          then st.consecutiveEmptyAnalyses + 1 else 0) = 0
    rw [if_neg]
    intro hc
    rcases h with h | h
    · exact h hc.1
    · exact h hc.2

/-- Witness for claim C9: two clean analyses in a row select the healthy card, and
    a toxic analysis resets the streak. -/
theorem healthy_streak_selects_positive_witness :
    (displayAnalysis (displayAnalysis exIdleAfterCycle "Level: None") "Level: None").indicatorContent =
      Content.analysis RenderModel.healthy ∧
    (displayAnalysis exIdleAfterCycle "Level: High").consecutiveEmptyAnalyses = 0 :=
  ⟨healthy_streak_selects_positive.1 exIdleAfterCycle "Level: None" "Level: None"
     (by decide) (by decide) (by decide) (by decide),
   healthy_streak_selects_positive.2 exIdleAfterCycle "Level: High"
     (Or.inl (by decide))⟩

/-! Claim C2: the trigger condition of the analysis scheduler. -/

/-- Claim C2: during an active session, a mutation batch fires an analysis cycle
    if and only if it yields at least one new extracted message, the scheduler is
    idle (analysisInProgress false), the post-update buffer holds at least two
    messages, and the elapsed time since lastAnalysisTime strictly exceeds the
    cooldown; on fire, lastAnalysisTime is set to the trigger time and the
    in-flight flag is raised, before the remote call completes. -/
theorem trigger_fires_iff (st : AnalyzerState) (texts : List String) (now : Nat)
    (hact : st.isActive = true) :
    ((observerStep st texts now).2 = true ↔
      (extractNewMessages texts ≠ [] ∧ st.analysisInProgress = false ∧
       2 ≤ (observerStep st texts now).1.messageBuffer.length ∧
       delayMs st.settings < now - st.lastAnalysisTime)) ∧
    ((observerStep st texts now).2 = true →
      (observerStep st texts now).1.lastAnalysisTime = now ∧
      (observerStep st texts now).1.analysisInProgress = true) := by
  by_cases hp : st.analysisInProgress = true
  · have hstep : observerStep st texts now = (st, false) := by
      unfold observerStep
      rw [if_pos (Or.inr hp)]
    rw [hstep]
    simp [hp]
  · have hp' : st.analysisInProgress = false := by simpa using hp
    have hguard : ¬(st.isActive = false ∨ st.analysisInProgress = true) := by
      simp [hact, hp']
    by_cases hn : extractNewMessages texts = []
    · have hstep : observerStep st texts now = (st, false) := by
        unfold observerStep
        rw [if_neg hguard]
        simp only
        rw [if_pos (by simp [hn])]
      rw [hstep]
      simp [hn]
    · have hlen : ¬(extractNewMessages texts).length = 0 := by
        simpa [List.length_eq_zero] using hn
      by_cases hfire : delayMs st.settings < now - st.lastAnalysisTime ∧
          2 ≤ (truncateBuffer (appendMessages st.messageBuffer (extractNewMessages texts))
                (capacity st.settings)).length
      · have hstep : observerStep st texts now =
            ({ st with
                messageBuffer := truncateBuffer
                  (appendMessages st.messageBuffer (extractNewMessages texts))
                  (capacity st.settings),
                analysisInProgress := true, lastAnalysisTime := now,
                indicatorContent := Content.loadingMsg (truncateBuffer
                  (appendMessages st.messageBuffer (extractNewMessages texts))
                  (capacity st.settings)).length,
                indicatorVisible := true }, true) := by
          unfold observerStep
          rw [if_neg hguard]
          simp only
          rw [if_neg hlen, if_pos hfire]
          unfold fireAnalysis
          rw [if_neg (by push_neg; exact ⟨hfire.2, by simp [hp']⟩)]
        rw [hstep]
        simp [hn, hp', hfire.1, hfire.2]
      · have hstep : observerStep st texts now =
            ({ st with
                messageBuffer := truncateBuffer
                  (appendMessages st.messageBuffer (extractNewMessages texts))
                  (capacity st.settings) }, false) := by
          unfold observerStep
          rw [if_neg hguard]
          simp only
          rw [if_neg hlen, if_neg hfire]
        rw [hstep]
        constructor
        · constructor
          · intro hh
            exact absurd hh (by simp)
          · rintro ⟨-, -, h2, h3⟩
            exact absurd (And.intro h3 h2) hfire
        · intro hh
          exact absurd hh (by simp)

/-- Witness for claim C2: an idle session two messages deep, past the cooldown,
    receiving one new message at time 20000. -/
theorem trigger_fires_iff_witness :
    (((observerStep exIdleAfterCycle ["i am fine thanks"] 20000).2 = true ↔
      (extractNewMessages ["i am fine thanks"] ≠ [] ∧
       exIdleAfterCycle.analysisInProgress = false ∧
       2 ≤ (observerStep exIdleAfterCycle ["i am fine thanks"] 20000).1.messageBuffer.length ∧
       delayMs exIdleAfterCycle.settings < 20000 - exIdleAfterCycle.lastAnalysisTime)) ∧
     ((observerStep exIdleAfterCycle ["i am fine thanks"] 20000).2 = true →
      (observerStep exIdleAfterCycle ["i am fine thanks"] 20000).1.lastAnalysisTime = 20000 ∧
      (observerStep exIdleAfterCycle ["i am fine thanks"] 20000).1.analysisInProgress = true)) :=
  trigger_fires_iff exIdleAfterCycle ["i am fine thanks"] 20000 rfl

/-! Claim C5: totality of the response parser. -/

lemma parseLine_fields (r : AnalysisResult) (line : String) :
    ((parseLine r line).level = r.level ∨ (parseLine r line).level ∈ levelValues) ∧
    ((parseLine r line).toxicPerson = r.toxicPerson ∨
      (parseLine r line).toxicPerson ∈ personValues) ∧
    ((parseLine r line).behaviors = r.behaviors ∨
      (parseLine r line).behaviors = behaviorsSplit (jsTrim (strDrop (jsTrim line) 10))) ∧
    ((parseLine r line).problem = r.problem ∨
      (parseLine r line).problem = jsTrim (strDrop (jsTrim line) 8)) ∧
    ((parseLine r line).suggestion = r.suggestion ∨
      (parseLine r line).suggestion = jsTrim (strDrop (jsTrim line) 11)) := by
  simp only [parseLine]
  split_ifs
  all_goals simp_all [levelValues, personValues, List.contains, List.elem]

lemma foldl_parseLine_fields (ls : List String) (r : AnalysisResult) :
    ((ls.foldl parseLine r).level = r.level ∨ (ls.foldl parseLine r).level ∈ levelValues) ∧
    ((ls.foldl parseLine r).toxicPerson = r.toxicPerson ∨
      (ls.foldl parseLine r).toxicPerson ∈ personValues) ∧
    ((ls.foldl parseLine r).behaviors = r.behaviors ∨
      ∃ l ∈ ls, (ls.foldl parseLine r).behaviors =
        behaviorsSplit (jsTrim (strDrop (jsTrim l) 10))) ∧
    ((ls.foldl parseLine r).problem = r.problem ∨
      ∃ l ∈ ls, (ls.foldl parseLine r).problem = jsTrim (strDrop (jsTrim l) 8)) ∧
    ((ls.foldl parseLine r).suggestion = r.suggestion ∨
      ∃ l ∈ ls, (ls.foldl parseLine r).suggestion = jsTrim (strDrop (jsTrim l) 11)) := by
  induction ls generalizing r with
  | nil => simp
  | cons a as ih =>
    simp only [List.foldl]
    obtain ⟨g1, g2, g3, g4, g5⟩ := parseLine_fields r a
    obtain ⟨h1, h2, h3, h4, h5⟩ := ih (parseLine r a)
    refine ⟨?_, ?_, ?_, ?_, ?_⟩
    · rcases h1 with h | h
      · rw [h]
        exact g1
      · exact Or.inr h
    · rcases h2 with h | h
      · rw [h]
        exact g2
      · exact Or.inr h
    · rcases h3 with h | h
      · rw [h]
        rcases g3 with g | g
        · exact Or.inl g
        · exact Or.inr ⟨a, List.mem_cons_self a as, g⟩
      · obtain ⟨l, hl, hval⟩ := h
        exact Or.inr ⟨l, List.mem_cons_of_mem a hl, hval⟩
    · rcases h4 with h | h
      · rw [h]
        rcases g4 with g | g
        · exact Or.inl g
        · exact Or.inr ⟨a, List.mem_cons_self a as, g⟩
      · obtain ⟨l, hl, hval⟩ := h
        exact Or.inr ⟨l, List.mem_cons_of_mem a hl, hval⟩
    · rcases h5 with h | h
      · rw [h]
        rcases g5 with g | g
        · exact Or.inl g
        · exact Or.inr ⟨a, List.mem_cons_self a as, g⟩
      · obtain ⟨l, hl, hval⟩ := h
        exact Or.inr ⟨l, List.mem_cons_of_mem a hl, hval⟩

/-- Claim C5: the parser is total — for arbitrary input it returns a record with
    all five fields populated: level and toxicPerson are always members of their
    enumerations, and behaviors, problem and suggestion are each either the
    documented default or the override extracted from one of the input's lines. -/
theorem parse_total_defaults (raw : String) :
    ((parseAnalysis raw).level ∈ levelValues) ∧
    ((parseAnalysis raw).toxicPerson ∈ personValues) ∧
    ((parseAnalysis raw).behaviors = ["No toxic behaviors detected"] ∨
      ∃ l ∈ splitCh '\n' raw, (parseAnalysis raw).behaviors =
        behaviorsSplit (jsTrim (strDrop (jsTrim l) 10))) ∧
    ((parseAnalysis raw).problem = "No significant issues" ∨
      ∃ l ∈ splitCh '\n' raw, (parseAnalysis raw).problem =
        jsTrim (strDrop (jsTrim l) 8)) ∧
    ((parseAnalysis raw).suggestion = "Keep up the good communication" ∨
      ∃ l ∈ splitCh '\n' raw, (parseAnalysis raw).suggestion =
        jsTrim (strDrop (jsTrim l) 11)) := by
  obtain ⟨h1, h2, h3, h4, h5⟩ := foldl_parseLine_fields (splitCh '\n' raw) defaultResult
  unfold parseAnalysis
  refine ⟨?_, ?_, h3, h4, h5⟩
  · rcases h1 with h | h
    · rw [h]
      decide
    · exact h
  · rcases h2 with h | h
    · rw [h]
      decide
    · exact h

/-! Claim C6: well-formed five-line responses parse verbatim. -/

/-- A value string as it appears verbatim on a labeled line: nonempty, with no
    leading or trailing whitespace (so trimming it is the identity). -/
def VerbatimValue (v : String) : Prop :=
  v ≠ "" ∧ v.data.dropWhile isWsChar = v.data ∧
  v.data.reverse.dropWhile isWsChar = v.data.reverse

instance (v : String) : Decidable (VerbatimValue v) := by
  unfold VerbatimValue; infer_instance

lemma jsTrim_of_verbatim (v : String) (h : VerbatimValue v) : jsTrim v = v := by
  obtain ⟨-, h1, h2⟩ := h
  unfold jsTrim
  rw [trimChars_fix v.data h1 h2]

lemma jsTrim_space_verbatim (v : String) (h : VerbatimValue v) :
    jsTrim (String.mk (' ' :: v.data)) = v := by
  obtain ⟨-, h1, h2⟩ := h
  show String.mk (trimChars (' ' :: v.data)) = v
  rw [trimChars_space v.data h1 h2]

lemma jsTrim_label_line (c : Char) (cs : List Char) (v : String) (hc : isWsChar c = false)
    (hv : VerbatimValue v) :
    trimChars ((c :: cs) ++ v.data) = (c :: cs) ++ v.data :=
  trimChars_wrap c cs v.data hc hv.2.2 (data_ne_nil v hv.1)

lemma parseLine_level_enum (r : AnalysisResult) (lv : String) (h : lv ∈ levelValues) :
    parseLine r ("Level: " ++ lv) = { r with level := lv } := by
  simp only [levelValues, List.mem_cons, List.not_mem_nil, or_false] at h
  rcases h with rfl | rfl | rfl | rfl <;> rfl

lemma parseLine_person_enum (r : AnalysisResult) (tp : String) (h : tp ∈ personValues) :
    parseLine r ("ToxicPerson: " ++ tp) = { r with toxicPerson := tp } := by
  simp only [personValues, List.mem_cons, List.not_mem_nil, or_false] at h
  rcases h with rfl | rfl | rfl | rfl <;> rfl

lemma parseLine_behaviors_val (r : AnalysisResult) (b : String) (hb : VerbatimValue b)
    (hs : jsIncludes b "No toxic behaviors" = false) :
    parseLine r ("Behaviors: " ++ b) = { r with behaviors := behaviorsSplit b } := by
  have hclean : jsTrim ("Behaviors: " ++ b) = "Behaviors: " ++ b := by
    show String.mk (trimChars (('B' :: "ehaviors: ".data) ++ b.data)) = "Behaviors: " ++ b
    rw [jsTrim_label_line 'B' "ehaviors: ".data b rfl hb]
    rfl
  have hv : jsTrim (strDrop ("Behaviors: " ++ b) 10) = b := by
    show jsTrim (String.mk ((("Behaviors: " ++ b).data).drop 10)) = b
    rw [show (("Behaviors: " ++ b).data).drop 10 = ' ' :: b.data from rfl]
    exact jsTrim_space_verbatim b hb
  simp only [parseLine, hclean, hv, hs,
    show jsStarts ("Behaviors: " ++ b) "Level:" = false from rfl,
    show jsStarts ("Behaviors: " ++ b) "ToxicPerson:" = false from rfl,
    show jsStarts ("Behaviors: " ++ b) "Behaviors:" = true from rfl]
  simp [hb.1]

lemma parseLine_problem_val (r : AnalysisResult) (p : String) (hp : VerbatimValue p)
    (hs : jsIncludes p "No significant issues" = false) :
    parseLine r ("Problem: " ++ p) = { r with problem := p } := by
  have hclean : jsTrim ("Problem: " ++ p) = "Problem: " ++ p := by
    show String.mk (trimChars (('P' :: "roblem: ".data) ++ p.data)) = "Problem: " ++ p
    rw [jsTrim_label_line 'P' "roblem: ".data p rfl hp]
    rfl
  have hv : jsTrim (strDrop ("Problem: " ++ p) 8) = p := by
    show jsTrim (String.mk ((("Problem: " ++ p).data).drop 8)) = p
    rw [show (("Problem: " ++ p).data).drop 8 = ' ' :: p.data from rfl]
    exact jsTrim_space_verbatim p hp
  simp only [parseLine, hclean, hv, hs,
    show jsStarts ("Problem: " ++ p) "Level:" = false from rfl,
    show jsStarts ("Problem: " ++ p) "ToxicPerson:" = false from rfl,
    show jsStarts ("Problem: " ++ p) "Behaviors:" = false from rfl,
    show jsStarts ("Problem: " ++ p) "Problem:" = true from rfl]
  simp [hp.1]

lemma parseLine_suggestion_val (r : AnalysisResult) (s : String) (hs' : VerbatimValue s)
    (hs : jsIncludes s "Keep up the good communication" = false) :
    parseLine r ("Suggestion: " ++ s) = { r with suggestion := s } := by
  have hclean : jsTrim ("Suggestion: " ++ s) = "Suggestion: " ++ s := by
    show String.mk (trimChars (('S' :: "uggestion: ".data) ++ s.data)) = "Suggestion: " ++ s
    rw [jsTrim_label_line 'S' "uggestion: ".data s rfl hs']
    rfl
  have hv : jsTrim (strDrop ("Suggestion: " ++ s) 11) = s := by
    show jsTrim (String.mk ((("Suggestion: " ++ s).data).drop 11)) = s
    rw [show (("Suggestion: " ++ s).data).drop 11 = ' ' :: s.data from rfl]
    exact jsTrim_space_verbatim s hs'
  simp only [parseLine, hclean, hv, hs,
    show jsStarts ("Suggestion: " ++ s) "Level:" = false from rfl,
    show jsStarts ("Suggestion: " ++ s) "ToxicPerson:" = false from rfl,
    show jsStarts ("Suggestion: " ++ s) "Behaviors:" = false from rfl,
    show jsStarts ("Suggestion: " ++ s) "Problem:" = false from rfl,
    show jsStarts ("Suggestion: " ++ s) "Suggestion:" = true from rfl]
  simp [hs'.1]

/-- Claim C6: the documented scenario text parses to exactly the expected record,
    and in general a fully-formed five-line response whose Level and ToxicPerson
    are recognized enum values and whose Behaviors, Problem and Suggestion are
    nonempty trimmed non-sentinel values parses to exactly those values verbatim
    (Behaviors being comma-split). -/
theorem parse_wellformed_verbatim :
    parseAnalysis "Level: High\nToxicPerson: Person A\nBehaviors: insults, sarcasm\nProblem: called other person names\nSuggestion: use respectful language" =
      ⟨"High", "Person A", ["insults", "sarcasm"], "called other person names",
       "use respectful language"⟩ ∧
    ∀ (raw lv tp b p s : String),
      splitCh '\n' raw = ["Level: " ++ lv, "ToxicPerson: " ++ tp, "Behaviors: " ++ b,
        "Problem: " ++ p, "Suggestion: " ++ s] →
      lv ∈ levelValues → tp ∈ personValues →
      VerbatimValue b → jsIncludes b "No toxic behaviors" = false →
      VerbatimValue p → jsIncludes p "No significant issues" = false →
      VerbatimValue s → jsIncludes s "Keep up the good communication" = false →
      parseAnalysis raw = ⟨lv, tp, behaviorsSplit b, p, s⟩ := by
  constructor
  · decide
  · intro raw lv tp b p s hsplit hlv htp hb hbs hp hps hs hss
    unfold parseAnalysis
    rw [hsplit]
    simp only [List.foldl]
    rw [parseLine_level_enum defaultResult lv hlv,
        parseLine_person_enum _ tp htp,
        parseLine_behaviors_val _ b hb hbs,
        parseLine_problem_val _ p hp hps,
        parseLine_suggestion_val _ s hs hss]

/-- Witness for claim C6: the general clause applied to the scenario input. -/
theorem parse_wellformed_verbatim_witness :
    parseAnalysis "Level: High\nToxicPerson: Person A\nBehaviors: insults, sarcasm\nProblem: called other person names\nSuggestion: use respectful language" =
      ⟨"High", "Person A", behaviorsSplit "insults, sarcasm",
       "called other person names", "use respectful language"⟩ :=
  parse_wellformed_verbatim.2
    "Level: High\nToxicPerson: Person A\nBehaviors: insults, sarcasm\nProblem: called other person names\nSuggestion: use respectful language"
    "High" "Person A" "insults, sarcasm" "called other person names"
    "use respectful language" (by decide) (by decide) (by decide) (by decide)
    (by decide) (by decide) (by decide) (by decide) (by decide)

end ChatBuddy
